import Mathlib

/-!
Verification of the feed ingestion and caching pipeline of the
bon-appetit-recipe-card-rss-signage repository.

The development shallowly embeds the request handler shared (up to cosmetic
differences) by `src/api/feed.ts`, `src/server.js` and the two serverless
variants: JavaScript strings are modelled as Lean `String` (a character is one
element of `String.data`), JavaScript `undefined`/missing fields as `Option`,
JavaScript truthiness of strings as non-emptiness, timestamps as `Int`
milliseconds, and the outcome of the outbound `fetch`+`XMLParser.parse` step as
an explicit oracle argument (`FetchOutcome`), since the handler never inspects
the HTTP response beyond handing its text to the parser.
-/

/-- JavaScript truthiness of a string: truthy iff non-empty. -/
def truthy (s : String) : Bool := !s.data.isEmpty

/-- Truthiness of a possibly-missing string (`undefined` is falsy). -/
def truthyOpt (o : Option String) : Bool :=
  match o with
  | some s => truthy s
  | none => false

/-- The JavaScript idiom `o || d` for a possibly-missing string `o`. -/
def jsOr (o : Option String) (d : String) : String :=
  match o with
  | some s => if truthy s then s else d
  | none => d

/-- The JavaScript idiom `s || d` for a definitely-present string `s`. -/
def jsOrStr (s d : String) : String := if truthy s then s else d

/-- Character-list prefix test used to model `String.prototype.includes`. -/
def prefixMatches : List Char → List Char → Bool
  | [], _ => true
  | _ :: _, [] => false
  | p :: ps, c :: cs => p == c && prefixMatches ps cs

/-- Substring occurrence test on character lists. -/
def hasSub (pat : List Char) : List Char → Bool
  | [] => pat.isEmpty
  | c :: cs => prefixMatches pat (c :: cs) || hasSub pat cs

/-- Models JavaScript `s.includes(pat)`. -/
def strContainsSub (s pat : String) : Bool := hasSub pat.data s.data

/-- Decimal digit test for the `parseInt` model. -/
def isDigitCh (c : Char) : Bool := '0' ≤ c && c ≤ '9'

/-- Longest leading run of decimal digits. -/
def takeDigits : List Char → List Char
  | [] => []
  | c :: cs => if isDigitCh c then c :: takeDigits cs else []

/-- Numeric value of a digit list (most significant first). -/
def digitsToNat (l : List Char) : Nat :=
  l.foldl (fun acc c => acc * 10 + (c.toNat - 48)) 0

/-- Models JavaScript `parseInt(s)` in base 10: skip leading whitespace, read an
optional sign and a leading run of decimal digits; `none` models `NaN` (no
digits found). -/
def parseIntJS (s : String) : Option Int :=
  let cs := s.data.dropWhile (fun c => c = ' ' || c = '\t' || c = '\n' || c = '\r')
  let signAndRest : Bool × List Char :=
    match cs with
    | '-' :: r => (true, r)
    | '+' :: r => (false, r)
    | r => (false, r)
  let ds := takeDigits signAndRest.2
  if ds.isEmpty then none
  else some (if signAndRest.1 then -(digitsToNat ds : Int) else (digitsToNat ds : Int))

/-- Models JavaScript `l.slice(0, e)` where `e` may be `NaN` (`none`): `NaN`
converts to `0`, a negative end counts from the end of the list, and the
result never exceeds the list. -/
def jsSlice {α : Type} (l : List α) (e : Option Int) : List α :=
  match e with
  | none => []
  | some n => if n < 0 then l.take (max ((l.length : Int) + n) 0).toNat else l.take n.toNat

/-- A `media:thumbnail`, `media:content` or `enclosure` node: its `@_url` and
`@_width` attributes, each possibly absent. -/
structure MediaRef where
  url : Option String
  width : Option String
deriving DecidableEq

/-- The one-or-many ambiguity of repeated XML elements: `fast-xml-parser`
yields a single object for one occurrence and an array for several. -/
inductive OneOrMany (α : Type) where
  | one : α → OneOrMany α
  | many : List α → OneOrMany α
deriving DecidableEq

/-- Models `Array.isArray(x) ? x : [x]`. -/
def OneOrMany.toList {α : Type} : OneOrMany α → List α
  | one a => [a]
  | many l => l

/-- A parsed RSS `item` as consumed by the normalizer (interface `RSSItem` in
`src/api/feed.ts`). -/
structure RSSItem where
  title : Option String
  description : Option String
  link : Option String
  pubDate : Option String
  thumbnail : Option MediaRef
  mediaContent : Option (OneOrMany MediaRef)
  enclosure : Option MediaRef
deriving DecidableEq

/-- The output unit (interface `RecipeItem`). -/
structure RecipeItem where
  title : String
  image : String
  description : String
  link : String
  pubDate : String
deriving DecidableEq

/-- The `media:thumbnail` URL chain `item['media:thumbnail']?.['@_url']`. -/
def thumbUrl (item : RSSItem) : Option String := item.thumbnail.bind MediaRef.url

/-- The `enclosure` URL chain `item.enclosure?.['@_url']`. -/
def enclosureUrl (item : RSSItem) : Option String := item.enclosure.bind MediaRef.url

/-- The 1280-preference predicate of `src/api/feed.ts` line 93:
`media['@_width'] === '1280' || media['@_url']?.includes('1280')`. -/
def wideMatch (m : MediaRef) : Bool :=
  m.width == some "1280" ||
    (match m.url with
     | some u => strContainsSub u "1280"
     | none => false)

/-- The `media:content` branch of the image resolution (lines 87-102 of
`src/api/feed.ts`): the first `wideMatch` entry wins, its missing URL
degrading to the empty string; otherwise the first entry's URL when truthy. -/
def contentImage (mc : List MediaRef) : String :=
  match mc.find? wideMatch with
  | some w => w.url.getD ""
  | none =>
    match mc.head? with
    | some m0 => if truthyOpt m0.url then m0.url.getD "" else ""
    | none => ""

/-- Full image resolution (lines 80-107 of `src/api/feed.ts`): thumbnail URL
when truthy, else the `media:content` branch, and when the result is still
falsy the enclosure URL when truthy. -/
def resolveImage (item : RSSItem) : String :=
  let image :=
    if truthyOpt (thumbUrl item) then (thumbUrl item).getD ""
    else
      match item.mediaContent with
      | some mcRaw => contentImage mcRaw.toList
      | none => ""
  if !truthy image && truthyOpt (enclosureUrl item) then (enclosureUrl item).getD ""
  else image

/-- Skips through the first `'>'`, returning the remainder; `none` when no
`'>'` occurs. -/
def dropThroughGt : List Char → Option (List Char)
  | [] => none
  | c :: cs => if c = '>' then some cs else dropThroughGt cs

/-- Fuelled scanner modelling the global regex replacement
`description.replace(/<[^>]*>/g, '')`: a `'<'` with a later `'>'` is removed
together with everything up to and including that first `'>'`; a `'<'` with no
later `'>'` matches nothing, and then nothing after it can match either, so
the remainder is kept verbatim.  Each step strictly shrinks the list, so fuel
equal to the input length is always sufficient. -/
def stripTagsFuel : Nat → List Char → List Char
  | 0, l => l
  | _ + 1, [] => []
  | fuel + 1, c :: cs =>
    if c = '<' then
      match dropThroughGt cs with
      | some rest => stripTagsFuel fuel rest
      | none => c :: cs
    else c :: stripTagsFuel fuel cs

/-- Models `s.replace(/<[^>]*>/g, '')`. -/
def stripTags (s : String) : String := String.mk (stripTagsFuel s.data.length s.data)

/-- Character count of a string (JavaScript `s.length`). -/
def strLen (s : String) : Nat := s.data.length

/-- First `n` characters of a string (JavaScript `s.substring(0, n)`). -/
def strTake (s : String) (n : Nat) : String := String.mk (s.data.take n)

/-- Description sanitization (lines 109-112 of `src/api/feed.ts`): default the
missing field, strip HTML tags, truncate past 160 characters with `"..."`. -/
def sanitizeDescription (d : Option String) : String :=
  let description := jsOr d ""
  let stripped := stripTags description
  if 160 < strLen stripped then strTake stripped 160 ++ "..." else stripped

/-- Normalization of one item into a `RecipeItem` (lines 78-120 of
`src/api/feed.ts`); `nowISO` models `new Date().toISOString()`. -/
def normalizeItem (nowISO : String) (item : RSSItem) : RecipeItem :=
  { title := jsOr item.title "Untitled Recipe"
    image := jsOrStr (resolveImage item) "/placeholder-recipe.jpg"
    description := sanitizeDescription item.description
    link := jsOr item.link "#"
    pubDate := jsOr item.pubDate nowISO }

/-- The post-map filter `(recipe) => recipe.title && recipe.image` (line 121 of
`src/api/feed.ts`): both fields truthy. -/
def keepRecipe (r : RecipeItem) : Bool := truthy r.title && truthy r.image

/-- The whole `items.map(...).filter(...)` normalization pipeline. -/
def normalizeItems (nowISO : String) (items : List RSSItem) : List RecipeItem :=
  (items.map (normalizeItem nowISO)).filter keepRecipe

/-- The module-scope cache slot: normalized cards plus the stamp of the last
successful refresh (`Date.now()` milliseconds). -/
structure Cache where
  data : List RecipeItem
  timestamp : Int
deriving DecidableEq

/-- Outcome oracle for the `fetch` + `response.text()` + `parser.parse` steps:
`failure` is any thrown error (network failure, timeout, malformed XML, or a
non-array `item` field making `.map` throw); `success itemsOpt` is a parse
that returned an object, with `itemsOpt = none` when the
`parsed.rss?.channel?.item` chain finds nothing (then `|| []` supplies the
empty list). -/
inductive FetchOutcome where
  | failure : FetchOutcome
  | success : Option (List RSSItem) → FetchOutcome
deriving DecidableEq

/-- A response body: a JSON array of cards, or the `{ error: ... }` object. -/
inductive RespBody where
  | cards : List RecipeItem → RespBody
  | errorObj : RespBody
deriving DecidableEq

/-- Observable result of one handler run: HTTP status, body, the cache slot
after the run, and how many outbound fetches were issued. -/
structure HandlerResult where
  status : Nat
  body : RespBody
  newCache : Option Cache
  fetches : Nat
deriving DecidableEq

/-- `DEFAULT_CACHE_MINUTES * 60 * 1000` milliseconds. -/
def TTL_MS : Int := 15 * 60 * 1000

/-- `DEFAULT_MAX_ITEMS`. -/
def MAX_ITEMS : Int := 20

/-- The guard `cache && (now - cache.timestamp) < (cacheMinutes * 60 * 1000)`. -/
def isFreshCache (cache : Option Cache) (now : Int) : Bool :=
  match cache with
  | some c => decide (now - c.timestamp < TTL_MS)
  | none => false

/-- Data of the cache slot (only read under the `cache &&` guard). -/
def cacheDataOf : Option Cache → List RecipeItem
  | some c => c.data
  | none => []

/-- The parsed `limit`:
`parseInt(url.searchParams.get('limit') || DEFAULT_MAX_ITEMS.toString())`,
with `none` for an absent parameter (JavaScript `null`). -/
def parseLimit (lp : Option String) : Option Int := parseIntJS (jsOr lp "20")

/-- The GET request handler of `src/api/feed.ts` (lines 48-158), identical in
behaviour to `src/server.js` lines 23-113: serve a fresh cache without
fetching; otherwise fetch and parse (outcome given by the oracle `f`),
normalize, overwrite the cache with the first `DEFAULT_MAX_ITEMS` cards and
answer with the first `limit` freshly normalized cards; on a thrown error
answer from the cache when one exists, else with a 500 error object. -/
def handler (cache : Option Cache) (now : Int) (nowISO : String)
    (lp : Option String) (f : FetchOutcome) : HandlerResult :=
  let limit := parseLimit lp
  if isFreshCache cache now then
    { status := 200, body := RespBody.cards (jsSlice (cacheDataOf cache) limit)
      newCache := cache, fetches := 0 }
  else
    match f with
    | FetchOutcome.success itemsOpt =>
      let recipes := normalizeItems nowISO (itemsOpt.getD [])
      { status := 200, body := RespBody.cards (jsSlice recipes limit)
        newCache := some { data := jsSlice recipes (some MAX_ITEMS), timestamp := now }
        fetches := 1 }
    | FetchOutcome.failure =>
      match cache with
      | some c =>
        { status := 200, body := RespBody.cards (jsSlice c.data limit)
          newCache := some c, fetches := 1 }
      | none =>
        { status := 500, body := RespBody.errorObj, newCache := none, fetches := 1 }

/-- Observable result of the durable-snapshot variant: additionally records the
card list written through to `/tmp/last.json`, when any. -/
structure DurableResult where
  status : Nat
  body : RespBody
  newCache : Option Cache
  snapshotWrite : Option (List RecipeItem)
  fetches : Nat
deriving DecidableEq

/-- The durable-snapshot variant of the handler (second file of
`src/unnamed/part_000`, lines 100-241): like `handler`, but a successful
refresh also writes the stored cards to `/tmp/last.json`, and on a thrown
error with an empty in-memory cache the snapshot (`snapshot` is its parsed
content, `none` when missing or corrupt) is served with status 503, a missing
or corrupt snapshot producing the 503 error object. -/
def durableHandler (cache : Option Cache) (now : Int) (nowISO : String)
    (lp : Option String) (f : FetchOutcome)
    (snapshot : Option (List RecipeItem)) : DurableResult :=
  let limit := parseLimit lp
  if isFreshCache cache now then
    { status := 200, body := RespBody.cards (jsSlice (cacheDataOf cache) limit)
      newCache := cache, snapshotWrite := none, fetches := 0 }
  else
    match f with
    | FetchOutcome.success itemsOpt =>
      let recipes := normalizeItems nowISO (itemsOpt.getD [])
      let stored := jsSlice recipes (some MAX_ITEMS)
      { status := 200, body := RespBody.cards (jsSlice recipes limit)
        newCache := some { data := stored, timestamp := now }
        snapshotWrite := some stored, fetches := 1 }
    | FetchOutcome.failure =>
      match cache with
      | some c =>
        { status := 200, body := RespBody.cards (jsSlice c.data limit)
          newCache := some c, snapshotWrite := none, fetches := 1 }
      | none =>
        match snapshot with
        | some d =>
          { status := 503, body := RespBody.cards (jsSlice d limit)
            newCache := none, snapshotWrite := none, fetches := 1 }
        | none =>
          { status := 503, body := RespBody.errorObj
            newCache := none, snapshotWrite := none, fetches := 1 }

/-! ## Helper lemmas -/

/-- A non-empty string is truthy. -/
theorem truthy_of_ne (s : String) (h : s ≠ "") : truthy s = true := by
  cases s with
  | mk data =>
    cases data with
    | nil => exact absurd rfl h
    | cons c cs => rfl

/-- `o || d` is truthy whenever the default `d` is. -/
theorem jsOr_truthy (o : Option String) (d : String) (hd : truthy d = true) :
    truthy (jsOr o d) = true := by
  cases o with
  | none => simpa [jsOr] using hd
  | some s =>
    by_cases hs : truthy s
    · simp [jsOr, hs]
    · simp [jsOr, hs, hd]

/-- `s || d` is truthy whenever the default `d` is. -/
theorem jsOrStr_truthy (s d : String) (hd : truthy d = true) :
    truthy (jsOrStr s d) = true := by
  by_cases hs : truthy s <;> simp [jsOrStr, hs, hd]

/-- A present string short-circuits `o || ''` to itself (an empty present
string and the default coincide). -/
theorem jsOr_some_empty (d : String) : jsOr (some d) "" = d := by
  by_cases h : truthy d
  · simp [jsOr, h]
  · have hd : d = "" := by
      cases d with
      | mk data =>
        cases data with
        | nil => rfl
        | cons c cs => simp [truthy] at h
    simp [jsOr, h, hd]

/-- Every normalized card passes the `recipe.title && recipe.image` filter:
both fields were just defaulted to non-empty strings. -/
theorem keepRecipe_normalizeItem (nowISO : String) (i : RSSItem) :
    keepRecipe (normalizeItem nowISO i) = true := by
  show (truthy (jsOr i.title "Untitled Recipe") &&
    truthy (jsOrStr (resolveImage i) "/placeholder-recipe.jpg")) = true
  rw [jsOr_truthy _ _ (by decide), jsOrStr_truthy _ _ (by decide)]
  rfl

/-- Slicing the empty list gives the empty list for every end index. -/
theorem jsSlice_nil {α : Type} (e : Option Int) : jsSlice ([] : List α) e = [] := by
  cases e with
  | none => rfl
  | some n => by_cases h : n < 0 <;> simp [jsSlice, h]

/-- String length is additive over append. -/
theorem strLen_append (s t : String) : strLen (s ++ t) = strLen s + strLen t := by
  cases s with
  | mk a =>
    cases t with
    | mk b =>
      show (a ++ b).length = a.length + b.length
      exact List.length_append a b

/-! ## Handler evaluation lemmas -/

/-- Fresh-cache path of `handler`. -/
theorem handler_fresh (c : Cache) (now : Int) (nowISO : String) (lp : Option String)
    (f : FetchOutcome) (h : now - c.timestamp < TTL_MS) :
    handler (some c) now nowISO lp f =
      { status := 200, body := RespBody.cards (jsSlice c.data (parseLimit lp))
        newCache := some c, fetches := 0 } := by
  simp [handler, isFreshCache, cacheDataOf, h]

/-- Refresh path of `handler` on a successful fetch+parse. -/
theorem handler_stale_success (cache : Option Cache) (now : Int) (nowISO : String)
    (lp : Option String) (itemsOpt : Option (List RSSItem))
    (h : isFreshCache cache now = false) :
    handler cache now nowISO lp (FetchOutcome.success itemsOpt) =
      { status := 200
        body := RespBody.cards (jsSlice (normalizeItems nowISO (itemsOpt.getD [])) (parseLimit lp))
        newCache := some { data := jsSlice (normalizeItems nowISO (itemsOpt.getD [])) (some MAX_ITEMS)
                           timestamp := now }
        fetches := 1 } := by
  simp [handler, h]

/-- Fallback path of `handler`: thrown error with a populated cache. -/
theorem handler_stale_failure_cache (c : Cache) (now : Int) (nowISO : String)
    (lp : Option String) (h : isFreshCache (some c) now = false) :
    handler (some c) now nowISO lp FetchOutcome.failure =
      { status := 200, body := RespBody.cards (jsSlice c.data (parseLimit lp))
        newCache := some c, fetches := 1 } := by
  simp [handler, h]

/-- Fallback path of `handler`: thrown error with an empty cache. -/
theorem handler_failure_nocache (now : Int) (nowISO : String) (lp : Option String) :
    handler none now nowISO lp FetchOutcome.failure =
      { status := 500, body := RespBody.errorObj, newCache := none, fetches := 1 } := by
  simp [handler, isFreshCache]

/-! ## Claims -/

/-- C1 counterexample: a feed item with no raw title and no resolvable image
source is NOT dropped — defaulting runs before the filter, so the item is
emitted with the placeholder title and image. -/
theorem C1_counterexample :
    normalizeItems "2024-01-01T00:00:00.000Z"
        [{ title := none, description := none, link := none, pubDate := none
           thumbnail := none, mediaContent := none, enclosure := none }] ≠ [] ∧
    normalizeItems "2024-01-01T00:00:00.000Z"
        [{ title := none, description := none, link := none, pubDate := none
           thumbnail := none, mediaContent := none, enclosure := none }] =
      [{ title := "Untitled Recipe", image := "/placeholder-recipe.jpg"
         description := "", link := "#", pubDate := "2024-01-01T00:00:00.000Z" }] := by
  constructor
  · decide
  · decide

/-- C1 (amended): the `title && image` filter runs after the defaults
`'Untitled Recipe'` and `'/placeholder-recipe.jpg'` are substituted, and both
defaulted fields are always non-empty, so the filter is vacuous: every parsed
item yields a card in the result, in order, and no item is ever dropped. -/
theorem C1_filter_vacuous (nowISO : String) (items : List RSSItem) :
    normalizeItems nowISO items = items.map (normalizeItem nowISO) := by
  unfold normalizeItems
  apply List.filter_eq_self.mpr
  intro a ha
  rcases List.mem_map.mp ha with ⟨i, _, rfl⟩
  exact keepRecipe_normalizeItem nowISO i

/-- C2: for an item with no thumbnail whose content-media sequence has an
entry matching the 1280 preference (width attribute `"1280"` or URL containing
`"1280"`), the image resolves to the URL of the first matching entry wherever
it sits in the sequence; with no matching entry it resolves to the first
entry's URL. -/
theorem C2_wide_preference (item : RSSItem) (mc : OneOrMany MediaRef)
    (hthumb : item.thumbnail = none) (hmc : item.mediaContent = some mc) :
    (∀ m u, mc.toList.find? wideMatch = some m → m.url = some u → u ≠ "" →
        resolveImage item = u) ∧
    (∀ m0 u, mc.toList.find? wideMatch = none → mc.toList.head? = some m0 →
        m0.url = some u → u ≠ "" → resolveImage item = u) := by
  constructor
  · intro m u hfind hurl hne
    have hci : contentImage mc.toList = u := by
      simp [contentImage, hfind, hurl]
    simp [resolveImage, thumbUrl, hthumb, hmc, truthyOpt, hci, truthy_of_ne u hne]
  · intro m0 u hfind hhead hurl hne
    have hci : contentImage mc.toList = u := by
      simp [contentImage, hfind, hhead, hurl, truthyOpt, truthy_of_ne u hne]
    simp [resolveImage, thumbUrl, hthumb, hmc, truthyOpt, hci, truthy_of_ne u hne]

/-- C2 witness: a 1280-wide entry in second position beats the first entry;
with no matching entry the first entry's URL is used. -/
theorem C2_wide_preference_witness :
    resolveImage
        { title := some "A", description := none, link := none, pubDate := none
          thumbnail := none
          mediaContent := some (OneOrMany.many
            [{ url := some "https://img/first.jpg", width := some "640" },
             { url := some "https://img/wide.jpg", width := some "1280" }])
          enclosure := none } = "https://img/wide.jpg" ∧
    resolveImage
        { title := some "A", description := none, link := none, pubDate := none
          thumbnail := none
          mediaContent := some (OneOrMany.many
            [{ url := some "https://img/a.jpg", width := some "640" },
             { url := some "https://img/b.jpg", width := some "720" }])
          enclosure := none } = "https://img/a.jpg" := by
  constructor
  · exact (C2_wide_preference _ _ rfl rfl).1
      { url := some "https://img/wide.jpg", width := some "1280" }
      "https://img/wide.jpg" (by decide) rfl (by decide)
  · exact (C2_wide_preference _
      (OneOrMany.many
        [{ url := some "https://img/a.jpg", width := some "640" },
         { url := some "https://img/b.jpg", width := some "720" }]) rfl rfl).2
      { url := some "https://img/a.jpg", width := some "640" }
      "https://img/a.jpg" (by decide) rfl rfl (by decide)

/-- C10: when the first 1280-matching content entry has no URL attribute, the
content branch yields the empty string — the first entry's URL is not used as
a fallback — and resolution falls through to the enclosure (the placeholder
being substituted later when that too is missing). -/
theorem C10_match_without_url (item : RSSItem) (mc : OneOrMany MediaRef) (m : MediaRef)
    (hthumb : item.thumbnail = none) (hmc : item.mediaContent = some mc)
    (hfind : mc.toList.find? wideMatch = some m) (hurl : m.url = none) :
    contentImage mc.toList = "" ∧
    resolveImage item =
      (if truthyOpt (enclosureUrl item) then (enclosureUrl item).getD "" else "") := by
  have hci : contentImage mc.toList = "" := by
    simp [contentImage, hfind, hurl]
  refine ⟨hci, ?_⟩
  simp [resolveImage, thumbUrl, hthumb, hmc, truthyOpt, hci, truthy]

/-- C10 witness: a width-1280 entry without URL in second position; the first
entry's URL `first.jpg` is ignored and the enclosure URL wins. -/
theorem C10_match_without_url_witness :
    (contentImage (OneOrMany.many
        [{ url := some "https://img/first.jpg", width := none },
         { url := none, width := some "1280" }]).toList = "" ∧
      resolveImage
        { title := some "T", description := none, link := none, pubDate := none
          thumbnail := none
          mediaContent := some (OneOrMany.many
            [{ url := some "https://img/first.jpg", width := none },
             { url := none, width := some "1280" }])
          enclosure := some { url := some "https://img/enc.jpg", width := none } } =
        (if truthyOpt (enclosureUrl
            { title := some "T", description := none, link := none, pubDate := none
              thumbnail := none
              mediaContent := some (OneOrMany.many
                [{ url := some "https://img/first.jpg", width := none },
                 { url := none, width := some "1280" }])
              enclosure := some { url := some "https://img/enc.jpg", width := none } })
          then (enclosureUrl
            { title := some "T", description := none, link := none, pubDate := none
              thumbnail := none
              mediaContent := some (OneOrMany.many
                [{ url := some "https://img/first.jpg", width := none },
                 { url := none, width := some "1280" }])
              enclosure := some { url := some "https://img/enc.jpg", width := none } }).getD ""
          else "")) ∧
    resolveImage
        { title := some "T", description := none, link := none, pubDate := none
          thumbnail := none
          mediaContent := some (OneOrMany.many
            [{ url := some "https://img/first.jpg", width := none },
             { url := none, width := some "1280" }])
          enclosure := some { url := some "https://img/enc.jpg", width := none } } =
      "https://img/enc.jpg" := by
  constructor
  · exact C10_match_without_url _ _ { url := none, width := some "1280" }
      rfl rfl (by decide) rfl
  · decide

/-- C3: sanitization first removes every `<`-to-next-`>` tag globally; a
stripped result longer than 160 characters becomes its first 160 characters
plus `"..."` (163 characters in all), and a stripped result of at most 160
characters is returned unchanged. -/
theorem C3_description (d : String) :
    (160 < strLen (stripTags d) →
      sanitizeDescription (some d) = strTake (stripTags d) 160 ++ "..." ∧
      strLen (sanitizeDescription (some d)) = 163) ∧
    (strLen (stripTags d) ≤ 160 → sanitizeDescription (some d) = stripTags d) := by
  have hunfold : sanitizeDescription (some d) =
      (if 160 < strLen (stripTags (jsOr (some d) "")) then
        strTake (stripTags (jsOr (some d) "")) 160 ++ "..."
      else stripTags (jsOr (some d) "")) := rfl
  rw [jsOr_some_empty d] at hunfold
  constructor
  · intro h
    have hs : sanitizeDescription (some d) = strTake (stripTags d) 160 ++ "..." := by
      rw [hunfold, if_pos h]
    refine ⟨hs, ?_⟩
    rw [hs, strLen_append]
    have h160 : strLen (strTake (stripTags d) 160) = 160 := by
      show ((stripTags d).data.take 160).length = 160
      rw [List.length_take]
      have h' : 160 < (stripTags d).data.length := h
      omega
    rw [h160]
    rfl
  · intro h
    rw [hunfold, if_neg (by omega)]

set_option maxRecDepth 4000 in
/-- C3 witness: a tagged 203-character description strips to 200 characters
and truncates to 163; a short tagged description is returned stripped and
unchanged. -/
theorem C3_description_witness :
    (160 < strLen (stripTags (String.mk ('<' :: 'p' :: '>' :: List.replicate 200 'a'))) ∧
      sanitizeDescription (some (String.mk ('<' :: 'p' :: '>' :: List.replicate 200 'a'))) =
        strTake (stripTags (String.mk ('<' :: 'p' :: '>' :: List.replicate 200 'a'))) 160 ++ "..." ∧
      strLen (sanitizeDescription
        (some (String.mk ('<' :: 'p' :: '>' :: List.replicate 200 'a')))) = 163) ∧
    (strLen (stripTags "<p>Hello</p>") ≤ 160 ∧
      sanitizeDescription (some "<p>Hello</p>") = stripTags "<p>Hello</p>" ∧
      stripTags "<p>Hello</p>" = "Hello") := by
  have h1 : 160 < strLen (stripTags (String.mk ('<' :: 'p' :: '>' :: List.replicate 200 'a'))) := by
    decide
  have h2 : strLen (stripTags "<p>Hello</p>") ≤ 160 := by decide
  exact ⟨⟨h1, (C3_description _).1 h1⟩, ⟨h2, (C3_description _).2 h2, by decide⟩⟩

/-- C4: with a cache entry stamped `t`, the request is served from cache (zero
fetches) exactly when `now - t` is strictly below the 15-minute TTL, and on
that path the body is the first `limit` cached cards in stored order, the
status 200, and the cache slot is left unchanged. -/
theorem C4_fresh_cache (c : Cache) (now : Int) (nowISO : String) (lp : Option String)
    (f : FetchOutcome) (k : Int) (hk : parseLimit lp = some k) (hk0 : 0 ≤ k) :
    ((handler (some c) now nowISO lp f).fetches = 0 ↔ now - c.timestamp < TTL_MS) ∧
    (now - c.timestamp < TTL_MS →
      (handler (some c) now nowISO lp f).status = 200 ∧
      (handler (some c) now nowISO lp f).body = RespBody.cards (c.data.take k.toNat) ∧
      (handler (some c) now nowISO lp f).newCache = some c) := by
  have hbody : now - c.timestamp < TTL_MS →
      (handler (some c) now nowISO lp f).status = 200 ∧
      (handler (some c) now nowISO lp f).body = RespBody.cards (c.data.take k.toNat) ∧
      (handler (some c) now nowISO lp f).newCache = some c := by
    intro h
    rw [handler_fresh c now nowISO lp f h]
    refine ⟨rfl, ?_, rfl⟩
    have hnn : ¬ k < 0 := by omega
    simp [jsSlice, hk, hnn]
  refine ⟨⟨?_, ?_⟩, hbody⟩
  · intro hf
    by_contra h
    have hfr : isFreshCache (some c) now = false := by simp [isFreshCache, h]
    cases f with
    | success itemsOpt =>
      rw [handler_stale_success _ _ _ _ _ hfr] at hf
      simp at hf
    | failure =>
      rw [handler_stale_failure_cache _ _ _ _ hfr] at hf
      simp at hf
  · intro h
    rw [handler_fresh c now nowISO lp f h]

/-- C4 witness: a cache of two cards stamped at 0 queried at 1 ms with no
limit parameter (default 20) is served unchanged with zero fetches. -/
theorem C4_fresh_cache_witness :
    parseLimit (none : Option String) = some 20 ∧ (0 : Int) ≤ 20 ∧
    (1 : Int) - 0 < TTL_MS ∧
    (handler (some { data := [{ title := "T1", image := "I1", description := ""
                                link := "#", pubDate := "p" },
                              { title := "T2", image := "I2", description := ""
                                link := "#", pubDate := "p" }], timestamp := 0 })
        1 "iso" none FetchOutcome.failure).fetches = 0 ∧
    (handler (some { data := [{ title := "T1", image := "I1", description := ""
                                link := "#", pubDate := "p" },
                              { title := "T2", image := "I2", description := ""
                                link := "#", pubDate := "p" }], timestamp := 0 })
        1 "iso" none FetchOutcome.failure).body =
      RespBody.cards [{ title := "T1", image := "I1", description := ""
                        link := "#", pubDate := "p" },
                      { title := "T2", image := "I2", description := ""
                        link := "#", pubDate := "p" }] ∧
    (handler (some { data := [{ title := "T1", image := "I1", description := ""
                                link := "#", pubDate := "p" },
                              { title := "T2", image := "I2", description := ""
                                link := "#", pubDate := "p" }], timestamp := 0 })
        1 "iso" none FetchOutcome.failure).newCache =
      some { data := [{ title := "T1", image := "I1", description := ""
                        link := "#", pubDate := "p" },
                      { title := "T2", image := "I2", description := ""
                        link := "#", pubDate := "p" }], timestamp := 0 } := by
  have h := C4_fresh_cache
    { data := [{ title := "T1", image := "I1", description := "", link := "#", pubDate := "p" },
               { title := "T2", image := "I2", description := "", link := "#", pubDate := "p" }]
      timestamp := 0 }
    1 "iso" none FetchOutcome.failure 20 rfl (by decide)
  have hfresh : (1 : Int) - 0 < TTL_MS := by decide
  have hc := h.2 hfresh
  refine ⟨rfl, by decide, hfresh, h.1.mpr hfresh, ?_, hc.2.2⟩
  rw [hc.2.1]
  rfl

/-- C5 counterexample: with `limit=21` and 21 parsed items, the refresh path
stores only 20 cards but answers with all 21, so the response is not the
first-`limit` prefix of the newly stored set. -/
theorem C5_counterexample :
    (handler none 0 "iso" (some "21")
        (FetchOutcome.success (some (List.replicate 21
          { title := some "T", description := none, link := none, pubDate := none
            thumbnail := some { url := some "img.jpg", width := none }
            mediaContent := none, enclosure := none })))).body ≠
      RespBody.cards (jsSlice
        (cacheDataOf (handler none 0 "iso" (some "21")
          (FetchOutcome.success (some (List.replicate 21
            { title := some "T", description := none, link := none, pubDate := none
              thumbnail := some { url := some "img.jpg", width := none }
              mediaContent := none, enclosure := none })))).newCache)
        (some 21)) := by
  decide

/-- C5 (amended): on a successful refresh the cache is overwritten with the
first `DEFAULT_MAX_ITEMS = 20` freshly normalized cards regardless of the
requested `limit`, and the response is the first `limit` cards of the
freshly normalized list (not of the stored set); whenever the parsed `limit`
is between 0 and 20 the response is a prefix of what the cache now holds. -/
theorem C5_refresh_path (cache : Option Cache) (now : Int) (nowISO : String)
    (lp : Option String) (itemsOpt : Option (List RSSItem)) (k : Int)
    (hstale : isFreshCache cache now = false)
    (hk : parseLimit lp = some k) (hk0 : 0 ≤ k) :
    (handler cache now nowISO lp (FetchOutcome.success itemsOpt)).newCache =
      some { data := (normalizeItems nowISO (itemsOpt.getD [])).take 20, timestamp := now } ∧
    (handler cache now nowISO lp (FetchOutcome.success itemsOpt)).body =
      RespBody.cards ((normalizeItems nowISO (itemsOpt.getD [])).take k.toNat) ∧
    (k ≤ 20 →
      ∃ t, (normalizeItems nowISO (itemsOpt.getD [])).take k.toNat ++ t =
        (normalizeItems nowISO (itemsOpt.getD [])).take 20) := by
  rw [handler_stale_success cache now nowISO lp itemsOpt hstale]
  have hnn : ¬ k < 0 := by omega
  refine ⟨?_, ?_, ?_⟩
  · show (some { data := jsSlice (normalizeItems nowISO (itemsOpt.getD [])) (some MAX_ITEMS)
                 timestamp := now } : Option Cache) =
      some { data := (normalizeItems nowISO (itemsOpt.getD [])).take 20, timestamp := now }
    norm_num [jsSlice, MAX_ITEMS]
    rfl
  · show RespBody.cards (jsSlice (normalizeItems nowISO (itemsOpt.getD [])) (parseLimit lp)) = _
    simp [jsSlice, hk, hnn]
  · intro hk20
    refine ⟨((normalizeItems nowISO (itemsOpt.getD [])).take 20).drop k.toNat, ?_⟩
    conv_rhs => rw [← List.take_append_drop k.toNat
      ((normalizeItems nowISO (itemsOpt.getD [])).take 20)]
    rw [List.take_take, Nat.min_eq_left (by omega)]

/-- C5 witness: a stale run with five items and `limit=3` stores all five
cards (at most 20) and answers with the first three, a prefix of the store. -/
theorem C5_refresh_path_witness :
    isFreshCache none 0 = false ∧ parseLimit (some "3") = some 3 ∧ (0 : Int) ≤ 3 ∧
    ((handler none 0 "iso" (some "3")
        (FetchOutcome.success (some (List.replicate 5
          { title := some "T", description := none, link := none, pubDate := none
            thumbnail := some { url := some "img.jpg", width := none }
            mediaContent := none, enclosure := none })))).newCache =
      some { data := (normalizeItems "iso" (List.replicate 5
               { title := some "T", description := none, link := none, pubDate := none
                 thumbnail := some { url := some "img.jpg", width := none }
                 mediaContent := none, enclosure := none })).take 20
             timestamp := 0 } ∧
     (handler none 0 "iso" (some "3")
        (FetchOutcome.success (some (List.replicate 5
          { title := some "T", description := none, link := none, pubDate := none
            thumbnail := some { url := some "img.jpg", width := none }
            mediaContent := none, enclosure := none })))).body =
      RespBody.cards ((normalizeItems "iso" (List.replicate 5
        { title := some "T", description := none, link := none, pubDate := none
          thumbnail := some { url := some "img.jpg", width := none }
          mediaContent := none, enclosure := none })).take (Int.toNat 3)) ∧
     ((3 : Int) ≤ 20 →
       ∃ t, (normalizeItems "iso" (List.replicate 5
           { title := some "T", description := none, link := none, pubDate := none
             thumbnail := some { url := some "img.jpg", width := none }
             mediaContent := none, enclosure := none })).take (Int.toNat 3) ++ t =
         (normalizeItems "iso" (List.replicate 5
           { title := some "T", description := none, link := none, pubDate := none
             thumbnail := some { url := some "img.jpg", width := none }
             mediaContent := none, enclosure := none })).take 20)) :=
  ⟨rfl, rfl, by decide,
    C5_refresh_path none 0 "iso" (some "3")
      (some (List.replicate 5
        { title := some "T", description := none, link := none, pubDate := none
          thumbnail := some { url := some "img.jpg", width := none }
          mediaContent := none, enclosure := none })) 3 rfl rfl (by decide)⟩

/-- C6: a thrown fetch/parse failure with a populated (necessarily stale)
cache answers with the first `limit` previously cached cards, status 200, and
leaves the cache entry untouched. -/
theorem C6_failure_with_cache (c : Cache) (now : Int) (nowISO : String)
    (lp : Option String) (hstale : isFreshCache (some c) now = false) :
    (handler (some c) now nowISO lp FetchOutcome.failure).status = 200 ∧
    (handler (some c) now nowISO lp FetchOutcome.failure).body =
      RespBody.cards (jsSlice c.data (parseLimit lp)) ∧
    (handler (some c) now nowISO lp FetchOutcome.failure).newCache = some c := by
  rw [handler_stale_failure_cache c now nowISO lp hstale]
  exact ⟨rfl, rfl, rfl⟩

/-- C6 witness: a failure against a one-card stale cache returns that card
with status 200 and the cache slot unchanged. -/
theorem C6_failure_with_cache_witness :
    isFreshCache (some { data := [{ title := "T", image := "I", description := ""
                                    link := "#", pubDate := "p" }], timestamp := 0 })
        TTL_MS = false ∧
    ((handler (some { data := [{ title := "T", image := "I", description := ""
                                 link := "#", pubDate := "p" }], timestamp := 0 })
        TTL_MS "iso" none FetchOutcome.failure).status = 200 ∧
     (handler (some { data := [{ title := "T", image := "I", description := ""
                                 link := "#", pubDate := "p" }], timestamp := 0 })
        TTL_MS "iso" none FetchOutcome.failure).body =
       RespBody.cards (jsSlice [{ title := "T", image := "I", description := ""
                                  link := "#", pubDate := "p" }] (parseLimit none)) ∧
     (handler (some { data := [{ title := "T", image := "I", description := ""
                                 link := "#", pubDate := "p" }], timestamp := 0 })
        TTL_MS "iso" none FetchOutcome.failure).newCache =
       some { data := [{ title := "T", image := "I", description := ""
                         link := "#", pubDate := "p" }], timestamp := 0 }) :=
  ⟨by decide,
    C6_failure_with_cache
      { data := [{ title := "T", image := "I", description := "", link := "#", pubDate := "p" }]
        timestamp := 0 }
      TTL_MS "iso" none (by decide)⟩

/-- C7 counterexample: a stale request whose fetched body parses fine but has
no `rss.channel.item` shape takes the success path, not the fallback path:
the populated cache is overwritten with the empty card list and an empty
array is returned. -/
theorem C7_counterexample :
    (handler (some { data := [{ title := "T", image := "I", description := ""
                                link := "#", pubDate := "p" }], timestamp := 0 })
        TTL_MS "iso" none (FetchOutcome.success none)).newCache =
      some { data := [], timestamp := TTL_MS } ∧
    (handler (some { data := [{ title := "T", image := "I", description := ""
                                link := "#", pubDate := "p" }], timestamp := 0 })
        TTL_MS "iso" none (FetchOutcome.success none)).body = RespBody.cards [] ∧
    (handler (some { data := [{ title := "T", image := "I", description := ""
                                link := "#", pubDate := "p" }], timestamp := 0 })
        TTL_MS "iso" none (FetchOutcome.success none)).status = 200 := by
  refine ⟨?_, ?_, ?_⟩ <;> decide

/-- C7 (amended): only a thrown fetch/parse failure takes the fallback path,
where cached data is returned and the cache is untouched; a response that
parses but lacks the `rss.channel.item` shape is treated as a successful
refresh with zero items — the cache is overwritten with the empty list and an
empty array is returned with status 200.  Non-2xx responses are not detected:
their bodies flow into the same parse. -/
theorem C7_shape_is_success (cache : Option Cache) (now : Int) (nowISO : String)
    (lp : Option String) (hstale : isFreshCache cache now = false) :
    ((handler cache now nowISO lp (FetchOutcome.success none)).newCache =
        some { data := [], timestamp := now } ∧
     (handler cache now nowISO lp (FetchOutcome.success none)).body = RespBody.cards [] ∧
     (handler cache now nowISO lp (FetchOutcome.success none)).status = 200) ∧
    (∀ c, cache = some c →
      (handler cache now nowISO lp FetchOutcome.failure).newCache = some c ∧
      (handler cache now nowISO lp FetchOutcome.failure).body =
        RespBody.cards (jsSlice c.data (parseLimit lp))) := by
  constructor
  · rw [handler_stale_success cache now nowISO lp none hstale]
    refine ⟨?_, ?_, rfl⟩
    · show (some { data := jsSlice (normalizeItems nowISO []) (some MAX_ITEMS)
                   timestamp := now } : Option Cache) = some { data := [], timestamp := now }
      rfl
    · show RespBody.cards (jsSlice (normalizeItems nowISO []) (parseLimit lp)) =
        RespBody.cards []
      rw [show normalizeItems nowISO [] = [] from rfl, jsSlice_nil]
  · intro c hc
    subst hc
    rw [handler_stale_failure_cache c now nowISO lp hstale]
    exact ⟨rfl, rfl⟩

/-- C7 witness: at exactly the TTL boundary with a one-card cache, a shapeless
parse empties the cache and returns an empty array, while a thrown failure
preserves it. -/
theorem C7_shape_is_success_witness :
    isFreshCache (some { data := [{ title := "T", image := "I", description := ""
                                    link := "#", pubDate := "p" }], timestamp := 0 })
        TTL_MS = false ∧
    (((handler (some { data := [{ title := "T", image := "I", description := ""
                                  link := "#", pubDate := "p" }], timestamp := 0 })
          TTL_MS "iso" none (FetchOutcome.success none)).newCache =
        some { data := [], timestamp := TTL_MS } ∧
      (handler (some { data := [{ title := "T", image := "I", description := ""
                                  link := "#", pubDate := "p" }], timestamp := 0 })
          TTL_MS "iso" none (FetchOutcome.success none)).body = RespBody.cards [] ∧
      (handler (some { data := [{ title := "T", image := "I", description := ""
                                  link := "#", pubDate := "p" }], timestamp := 0 })
          TTL_MS "iso" none (FetchOutcome.success none)).status = 200) ∧
     (∀ c, (some { data := [{ title := "T", image := "I", description := ""
                              link := "#", pubDate := "p" }], timestamp := 0 } : Option Cache) =
            some c →
       (handler (some { data := [{ title := "T", image := "I", description := ""
                                   link := "#", pubDate := "p" }], timestamp := 0 })
           TTL_MS "iso" none FetchOutcome.failure).newCache = some c ∧
       (handler (some { data := [{ title := "T", image := "I", description := ""
                                   link := "#", pubDate := "p" }], timestamp := 0 })
           TTL_MS "iso" none FetchOutcome.failure).body =
         RespBody.cards (jsSlice c.data (parseLimit none)))) :=
  ⟨by decide,
    C7_shape_is_success
      (some { data := [{ title := "T", image := "I", description := "", link := "#"
                         pubDate := "p" }], timestamp := 0 })
      TTL_MS "iso" none (by decide)⟩

/-- C8: in the durable-snapshot variant, a failed fetch with an empty
in-memory cache serves the parsed snapshot (first `limit` entries) with
status 503; with the snapshot also missing or corrupt it serves the JSON
error object, again with a 5xx (503) status — and that total-unavailability
condition is the only way an error object is produced. -/
theorem C8_durable_fallback (now : Int) (nowISO : String) (lp : Option String)
    (snap : List RecipeItem) :
    ((durableHandler none now nowISO lp FetchOutcome.failure (some snap)).status = 503 ∧
     (durableHandler none now nowISO lp FetchOutcome.failure (some snap)).body =
       RespBody.cards (jsSlice snap (parseLimit lp))) ∧
    ((durableHandler none now nowISO lp FetchOutcome.failure none).status = 503 ∧
     (durableHandler none now nowISO lp FetchOutcome.failure none).body =
       RespBody.errorObj) ∧
    (∀ (cache : Option Cache) (f : FetchOutcome) (snapshot : Option (List RecipeItem)),
      (durableHandler cache now nowISO lp f snapshot).body = RespBody.errorObj →
        cache = none ∧ f = FetchOutcome.failure ∧ snapshot = none) := by
  refine ⟨⟨rfl, rfl⟩, ⟨rfl, rfl⟩, ?_⟩
  intro cache f snapshot h
  by_cases hf : isFreshCache cache now = true
  · simp [durableHandler, hf] at h
  · rw [Bool.not_eq_true] at hf
    cases f with
    | success itemsOpt => simp [durableHandler, hf] at h
    | failure =>
      cases cache with
      | some c => simp [durableHandler, hf] at h
      | none =>
        cases snapshot with
        | some d => simp [durableHandler, hf] at h
        | none => exact ⟨rfl, rfl, rfl⟩

/-- C8 witness: failure with empty cache and a one-card snapshot gives that
card with 503; failure with no snapshot gives the 503 error object, and the
error object indeed only arises in that state. -/
theorem C8_durable_fallback_witness :
    ((durableHandler none 0 "iso" none FetchOutcome.failure
        (some [{ title := "T", image := "I", description := ""
                 link := "#", pubDate := "p" }])).status = 503 ∧
     (durableHandler none 0 "iso" none FetchOutcome.failure
        (some [{ title := "T", image := "I", description := ""
                 link := "#", pubDate := "p" }])).body =
       RespBody.cards (jsSlice [{ title := "T", image := "I", description := ""
                                  link := "#", pubDate := "p" }] (parseLimit none))) ∧
    ((durableHandler none 0 "iso" none FetchOutcome.failure none).status = 503 ∧
     (durableHandler none 0 "iso" none FetchOutcome.failure none).body =
       RespBody.errorObj) ∧
    ((none : Option Cache) = none ∧
     FetchOutcome.failure = FetchOutcome.failure ∧
     (none : Option (List RecipeItem)) = none) :=
  have h := C8_durable_fallback 0 "iso" none
    [{ title := "T", image := "I", description := "", link := "#", pubDate := "p" }]
  ⟨h.1, h.2.1, h.2.2 none FetchOutcome.failure none rfl⟩

/-- C9: a present but non-numeric `limit` parses to `NaN`; `slice(0, NaN)` is
empty, so the request answers 200 with an empty array on every path that
answers with data — fresh cache, successful refresh, or failure with a
populated cache — no matter how many cards those sources hold. -/
theorem C9_nan_limit (cache : Option Cache) (now : Int) (nowISO : String)
    (s : String) (f : FetchOutcome)
    (hne : s ≠ "") (hnan : parseIntJS s = none)
    (hdata : cache ≠ none ∨ f ≠ FetchOutcome.failure) :
    (handler cache now nowISO (some s) f).status = 200 ∧
    (handler cache now nowISO (some s) f).body = RespBody.cards [] := by
  have hlp : parseLimit (some s) = none := by
    unfold parseLimit
    rw [show jsOr (some s) "20" = s by simp [jsOr, truthy_of_ne s hne]]
    exact hnan
  by_cases hf : isFreshCache cache now = true
  · cases cache with
    | none => simp [isFreshCache] at hf
    | some c =>
      have hlt : now - c.timestamp < TTL_MS := by
        simpa [isFreshCache] using hf
      rw [handler_fresh c now nowISO (some s) f hlt]
      exact ⟨rfl, by rw [hlp]; rfl⟩
  · rw [Bool.not_eq_true] at hf
    cases f with
    | success itemsOpt =>
      rw [handler_stale_success cache now nowISO (some s) itemsOpt hf]
      exact ⟨rfl, by rw [hlp]; rfl⟩
    | failure =>
      cases cache with
      | some c =>
        rw [handler_stale_failure_cache c now nowISO (some s) hf]
        exact ⟨rfl, by rw [hlp]; rfl⟩
      | none =>
        rcases hdata with hc | hff
        · exact absurd rfl hc
        · exact absurd rfl hff

/-- C9 witness: `limit=abc` against a fresh two-card cache returns 200 with an
empty array. -/
theorem C9_nan_limit_witness :
    "abc" ≠ "" ∧ parseIntJS "abc" = none ∧
    ((handler (some { data := [{ title := "T1", image := "I1", description := ""
                                 link := "#", pubDate := "p" },
                               { title := "T2", image := "I2", description := ""
                                 link := "#", pubDate := "p" }], timestamp := 0 })
        1 "iso" (some "abc") FetchOutcome.failure).status = 200 ∧
     (handler (some { data := [{ title := "T1", image := "I1", description := ""
                                 link := "#", pubDate := "p" },
                               { title := "T2", image := "I2", description := ""
                                 link := "#", pubDate := "p" }], timestamp := 0 })
        1 "iso" (some "abc") FetchOutcome.failure).body = RespBody.cards []) :=
  ⟨by decide, rfl,
    C9_nan_limit
      (some { data := [{ title := "T1", image := "I1", description := "", link := "#"
                         pubDate := "p" },
                       { title := "T2", image := "I2", description := "", link := "#"
                         pubDate := "p" }], timestamp := 0 })
      1 "iso" "abc" FetchOutcome.failure (by decide) rfl
      (Or.inl (by decide))⟩
